import Mathlib

/-!
Verification of the Hoot language pipeline (a tree-walking interpreter in the
Lox family, written in Python): a shallow embedding of the scanner
(`scanner.py`), parser (`parser_.py`), resolver (`resolver.py`), environments
(`environment.py`), callables (`callable.py`) and evaluator (`interpreter.py`),
together with theorems settling specification claims about them.

Modelling conventions:
* Python `float` literals are modelled by `Rat`; every numeric literal that
  appears in a theorem below is a small integer, which IEEE-754 doubles
  represent exactly, so the arithmetic in scope here is exact.
* Python dictionaries are association lists updated in insertion order.
* Mutable, aliased objects (environment frames, instances, string instances)
  live in explicit stores indexed by `Nat`; a Python object reference is the
  index given to the object when it was appended to its store.
* Recursion in the source (tree walks, loops via indices) is fuel-indexed;
  theorems about concrete programs use a concrete, amply sufficient fuel.
* Reported diagnostics are recorded as their message strings; the
  line/lexeme formatting done by `Hoot.report` is out of scope (spec section 1
  treats the error reporter as an external collaborator).
-/

namespace Hoot

/-- Token kinds, from `tokens.py` (`TokenType`). -/
inductive TokenType where
  | LEFT_PAREN | RIGHT_PAREN | LEFT_BRACE | RIGHT_BRACE | COMMA | DOT
  | MINUS | PLUS | SEMICOLON | SLASH | STAR
  | BANG | BANG_EQUAL | EQUAL | EQUAL_EQUAL
  | GREATER | GREATER_EQUAL | LESS | LESS_EQUAL
  | IDENTIFIER | STRING | NUMBER
  | AND | BREAK | CLASS | ELSE | FALSE | FUN | FOR | IF | NIL | OR
  | PRINT | RETURN | SUPER | THIS | TRUE | LET | WHILE
  | EOF
deriving DecidableEq, Repr

/-- A literal payload carried by a token (`Token.literal` in `tokens.py`):
the parsed double of a NUMBER or the text of a STRING, or none. -/
inductive PyLit where
  | num (q : Rat)
  | str (s : String)
deriving DecidableEq, Repr

/-- `tokens.py` `Token`: tag, lexeme, literal payload, source line. -/
structure Token where
  type_ : TokenType
  lexeme : String
  literal : Option PyLit
  line : Nat
deriving DecidableEq, Repr

/-- The Python value stored in a `Literal` AST node (`expr.py` `Literal`):
`True`/`False`/`None`/float/str as produced by `Parser.primary`. -/
inductive LitVal where
  | nil
  | bool (b : Bool)
  | num (q : Rat)
  | str (s : String)
deriving DecidableEq, Repr

mutual

/-- Expression AST, from `expr.py`.  The resolver keys its depth table on the
identity of `Assign`, `Letiable`, `This` and `Super` nodes; object identity is
modelled by a `Nat` id carried by exactly those variants (each parsed node is a
distinct Python object, so ids are injective over a parse). -/
inductive Expr : Type where
  | assign (id : Nat) (name : String) (value : Expr)
  | binary (left : Expr) (op : TokenType) (right : Expr)
  | call (callee : Expr) (arguments : List Expr)
  | get (obj : Expr) (name : String)
  | grouping (expression : Expr)
  | literal (value : LitVal)
  | logical (left : Expr) (op : TokenType) (right : Expr)
  | setE (obj : Expr) (name : String) (value : Expr)
  | superE (id : Nat) (method : String)
  | thisE (id : Nat)
  | unary (op : TokenType) (right : Expr)
  | letiable (id : Nat) (name : String)

/-- Statement AST, from `stmt.py`.  A method of a `classS` is a `Function`
node, recorded as its (name, params, body) fields; `superclass` is the
`Letiable` the parser builds for the superclass name (its id and lexeme). -/
inductive Stmt : Type where
  | block (statements : List Stmt)
  | classS (name : String) (superclass : Option (Nat × String))
      (methods : List (String × List String × List Stmt))
  | expression (e : Expr)
  | function (name : String) (params : List String) (body : List Stmt)
  | ifS (condition : Expr) (thenBranch : Stmt) (elseBranch : Option Stmt)
  | print (e : Expr)
  | returnS (value : Option Expr)
  | letS (name : String) (initializer : Option Expr)
  | whileS (condition : Expr) (body : Stmt)
  | breakS

end

/-! ## Resolver (`resolver.py`) -/

/-- `resolver.py` `FunctionType` (the source spells the third member
`INITIALIZR`). -/
inductive FunctionType where
  | NONE | FUNCTION | INITIALIZR | METHOD
deriving DecidableEq, Repr

/-- `resolver.py` `ClassType`. -/
inductive ClassType where
  | NONE | CLASS | SUBCLASS
deriving DecidableEq, Repr

/-- `resolver.py` `StatementType`. -/
inductive StatementType where
  | NONE | WHILE
deriving DecidableEq, Repr

/-- One scope of the resolver's stack: `Dict[str, bool]` mapping a declared
name to its defined-flag, as an insertion-ordered association list. -/
abbrev Scope := List (String × Bool)

/-- Python `name in scope` / `scope.get(name)`. -/
def scopeLookup (sc : Scope) (name : String) : Option Bool :=
  (sc.find? (fun p => p.1 == name)).map (fun p => p.2)

/-- Python `scope[name] = b`: update in place if present, else append. -/
def scopeSet (sc : Scope) (name : String) (b : Bool) : Scope :=
  match sc with
  | [] => [(name, b)]
  | (k, v) :: rest =>
      if k == name then (k, b) :: rest else (k, v) :: scopeSet rest name b

/-- Resolver state: the scope stack (head = `self.scopes[-1]`, the innermost
scope; the stack is *initialised to `[{}]`* by `Resolver.__init__`), reported
error messages, the interpreter's depth table `locals` being populated, and
the three context enums. -/
structure RState where
  scopes : List Scope
  errors : List String
  locals : List (Nat × Nat)
  current_function : FunctionType
  current_class : ClassType
  current_statement : StatementType
deriving Repr

/-- `Resolver.__init__`: note `self.scopes` starts as `[{}]`, i.e. with one
(empty) scope already on the stack. -/
def initRState : RState :=
  { scopes := [[]]
    errors := []
    locals := []
    current_function := .NONE
    current_class := .NONE
    current_statement := .NONE }

/-- `hoot.error(...)` as seen by the resolver: record the message and
(in the real driver) set `had_error`. -/
def rerror (st : RState) (msg : String) : RState :=
  { st with errors := st.errors ++ [msg] }

/-- `Resolver.begin_scope`. -/
def beginScope (st : RState) : RState :=
  { st with scopes := [] :: st.scopes }

/-- `Resolver.end_scope` (`self.scopes.pop()`; begin/end are balanced in the
source, so the stack is never popped empty). -/
def endScope (st : RState) : RState :=
  { st with scopes := st.scopes.tail }

/-- `Resolver.declare`: no-op on an empty stack; report if the name is already
in the innermost scope, then insert it with flag `False` (the source reports
and then falls through to the insertion). -/
def declare (st : RState) (name : String) : RState :=
  match st.scopes with
  | [] => st
  | top :: rest =>
      let st1 := if (scopeLookup top name).isSome then
          rerror st "Already variable with this name in this scope."
        else st
      { st1 with scopes := scopeSet top name false :: rest }

/-- `Resolver.define`: no-op on an empty stack, else set the flag `True` in
the innermost scope. -/
def define (st : RState) (name : String) : RState :=
  match st.scopes with
  | [] => st
  | top :: rest => { st with scopes := scopeSet top name true :: rest }

/-- Depth of the first scope, counted from the innermost, that contains
`name` (the loop of `Resolver.resolve_local`: `len(self.scopes) - 1 - i`
for the largest `i` whose scope holds the name). -/
def findScopeDepth : List Scope → String → Option Nat
  | [], _ => none
  | top :: rest, name =>
      if (scopeLookup top name).isSome then some 0
      else (findScopeDepth rest name).map (fun d => d + 1)

/-- `Resolver.resolve_local`: record `interpreter.resolve(expr, depth)` for the
first enclosing scope containing the name; record nothing when no scope does
(the reference is treated as global). -/
def resolveLocal (st : RState) (id : Nat) (name : String) : RState :=
  match findScopeDepth st.scopes name with
  | some d => { st with locals := (id, d) :: st.locals }
  | none => st

/-- `Resolver.visit_variable_expr` (`resolver.py` lines 117-122).  The source
guards the own-initializer check with `if len(self.scopes) == 0:` — the check
only runs on an *empty* scope stack, where its very first read
`self.scopes[-1]` would raise `IndexError` (modelled as the `Except.error`);
on a non-empty stack (always, given `__init__`'s `[{}]`) the guarded body is
skipped and only `resolve_local` runs. -/
def visitVariableExpr (st : RState) (id : Nat) (name : String) :
    Except String RState :=
  if st.scopes.length == 0 then
    Except.error "IndexError: list index out of range"
  else
    Except.ok (resolveLocal st id name)

mutual

/-- `Resolver` dispatch over expressions (the `visit_*_expr` methods). -/
def resolveExpr : Nat → RState → Expr → Except String RState
  | 0, _, _ => Except.error "resolver fuel exhausted"
  | n + 1, st, e =>
    match e with
    | .assign id name value => do
        let st ← resolveExpr n st value
        Except.ok (resolveLocal st id name)
    | .binary l _ r => do
        let st ← resolveExpr n st l
        resolveExpr n st r
    | .call callee args => do
        let st ← resolveExpr n st callee
        resolveExprs n st args
    | .get obj _ => resolveExpr n st obj
    | .grouping inner => resolveExpr n st inner
    | .literal _ => Except.ok st
    | .logical l _ r => do
        let st ← resolveExpr n st l
        resolveExpr n st r
    | .setE obj _ value => do
        let st ← resolveExpr n st value
        resolveExpr n st obj
    | .superE id _ =>
        let st :=
          if st.current_class == .NONE then
            rerror st "Can't use 'super' outside of a class."
          else if st.current_class != .SUBCLASS then
            rerror st "Can't use 'super' in a class with no superclass."
          else st
        Except.ok (resolveLocal st id "super")
    | .thisE id =>
        let st :=
          if st.current_class == .NONE then
            rerror st "Can't use 'this' outside of a class."
          else st
        Except.ok (resolveLocal st id "this")
    | .unary _ r => resolveExpr n st r
    | .letiable id name => visitVariableExpr st id name

def resolveExprs : Nat → RState → List Expr → Except String RState
  | 0, _, _ => Except.error "resolver fuel exhausted"
  | _ + 1, st, [] => Except.ok st
  | n + 1, st, e :: rest => do
      let st ← resolveExpr n st e
      resolveExprs n st rest

/-- `Resolver` dispatch over statements (the `visit_*_stmt` methods). -/
def resolveStmt : Nat → RState → Stmt → Except String RState
  | 0, _, _ => Except.error "resolver fuel exhausted"
  | n + 1, st, s =>
    match s with
    | .block stmts => do
        let st := beginScope st
        let st ← resolveStmts n st stmts
        Except.ok (endScope st)
    | .classS name superclass methods => do
        -- visit_class_stmt
        let enclosing := st.current_class
        let st := { st with current_class := .CLASS }
        let st := define (declare st name) name
        let st :=
          match superclass with
          | some (_, supName) =>
              if name == supName then
                rerror st "A class can't inherit from itself."
              else st
          | none => st
        let st ←
          match superclass with
          | some (supId, supName) => do
              let st := { st with current_class := .SUBCLASS }
              resolveExpr n st (.letiable supId supName)
          | none => Except.ok st
        let st :=
          match superclass with
          | some _ =>
              let st := beginScope st
              { st with scopes :=
                  match st.scopes with
                  | top :: rest => scopeSet top "super" true :: rest
                  | [] => [] }
          | none => st
        let st := beginScope st
        let st := { st with scopes :=
            match st.scopes with
            | top :: rest => scopeSet top "this" true :: rest
            | [] => [] }
        let st ← resolveMethods n st methods
        let st := endScope st
        let st := match superclass with
          | some _ => endScope st
          | none => st
        Except.ok { st with current_class := enclosing }
    | .expression e => resolveExpr n st e
    | .function name params body => do
        let st := define (declare st name) name
        resolveFunction n st params body .FUNCTION
    | .ifS cond thenB elseB => do
        let st ← resolveExpr n st cond
        let st ← resolveStmt n st thenB
        match elseB with
        | some e => resolveStmt n st e
        | none => Except.ok st
    | .print e => resolveExpr n st e
    | .returnS value =>
        -- visit_return_stmt: the *only* check is value-in-initializer; there
        -- is no `current_function == NONE` (top-level return) check.
        match value with
        | some v => do
            let st :=
              if st.current_function == .INITIALIZR then
                rerror st "Can't return a value from an initializer."
              else st
            resolveExpr n st v
        | none => Except.ok st
    | .letS name initializer => do
        let st := declare st name
        let st ←
          match initializer with
          | some init => resolveExpr n st init
          | none => Except.ok st
        Except.ok (define st name)
    | .whileS cond body => do
        let st ← resolveExpr n st cond
        let enclosing := st.current_statement
        let st := { st with current_statement := .WHILE }
        let st ← resolveStmt n st body
        Except.ok { st with current_statement := enclosing }
    | .breakS =>
        if st.current_statement != .WHILE then
          Except.ok (rerror st "Can't use 'break' outside of a loop.")
        else
          Except.ok st

def resolveStmts : Nat → RState → List Stmt → Except String RState
  | 0, _, _ => Except.error "resolver fuel exhausted"
  | _ + 1, st, [] => Except.ok st
  | n + 1, st, s :: rest => do
      let st ← resolveStmt n st s
      resolveStmts n st rest

/-- `Resolver.resolve_function`. -/
def resolveFunction : Nat → RState → List String → List Stmt → FunctionType →
    Except String RState
  | 0, _, _, _, _ => Except.error "resolver fuel exhausted"
  | n + 1, st, params, body, ftype => do
      let enclosing := st.current_function
      let st := { st with current_function := ftype }
      let st := beginScope st
      let st := params.foldl (fun st p => define (declare st p) p) st
      let st ← resolveStmts n st body
      let st := endScope st
      Except.ok { st with current_function := enclosing }

def resolveMethods : Nat → RState → List (String × List String × List Stmt) →
    Except String RState
  | 0, _, _ => Except.error "resolver fuel exhausted"
  | _ + 1, st, [] => Except.ok st
  | n + 1, st, (mname, params, body) :: rest => do
      let declaration : FunctionType :=
        if mname == "init" then .INITIALIZR else .METHOD
      let st ← resolveFunction n st params body declaration
      resolveMethods n st rest

end

/-- Resolving a whole program from the initial resolver state
(`Resolver.resolve_stmts` started from `__init__`'s state). -/
def resolveProgram (fuel : Nat) (stmts : List Stmt) : Except String RState :=
  resolveStmts fuel initRState stmts

/-! ## Runtime values and stores (`callable.py`, `environment.py`, `native.py`) -/

/-- Python `dict.get`. -/
def dictGet {α : Type} (m : List (String × α)) (k : String) : Option α :=
  (m.find? (fun p => p.1 == k)).map (fun p => p.2)

/-- Python `dict[k] = v`: overwrite in place, or append in insertion order. -/
def dictSet {α : Type} (m : List (String × α)) (k : String) (v : α) :
    List (String × α) :=
  match m with
  | [] => [(k, v)]
  | (k', v') :: rest =>
      if k' == k then (k', v) :: rest else (k', v') :: dictSet rest k v

/-- A `HootFunction` (`callable.py`): the `Function` declaration's fields, the
captured closure (an environment reference) and the `is_initializer` flag. -/
structure FunData where
  name : String
  params : List String
  body : List Stmt
  closure : Nat
  is_initializer : Bool

/-- A `HootClass` (`callable.py`): name, optional superclass, method table. -/
inductive ClassData : Type where
  | mk (name : String) (superclass : Option ClassData)
      (methods : List (String × FunData))

def ClassData.name : ClassData → String
  | .mk n _ _ => n

def ClassData.superclass : ClassData → Option ClassData
  | .mk _ s _ => s

def ClassData.methods : ClassData → List (String × FunData)
  | .mk _ _ m => m

/-- The nine native callables wired into globals by `Interpreter.__init__`,
plus the three method closures handed out by `StringInstance.get`
(each carrying the instance it was read from). -/
inductive NativeKind where
  | input | read | write | clock | delay | request
  | stringDT | listDT | mapDT
  | strAt (r : Nat) | strAlter (r : Nat) | strLength (r : Nat)
deriving DecidableEq, Repr

/-- A runtime value: `None`, `bool`, `float`, `str`, `HootFunction`,
`HootClass`, an object-store reference (`HootInstance` or `StringInstance`),
or a native callable. -/
inductive Value : Type where
  | vnil
  | vbool (b : Bool)
  | vnum (q : Rat)
  | vstr (s : String)
  | vfun (f : FunData)
  | vclass (c : ClassData)
  | vref (r : Nat)
  | vnative (k : NativeKind)

/-- A heap object: a `HootInstance` (class + mutable field dict) or a
`StringInstance` (`native.py`; its `elements` joined into a string). -/
inductive Obj : Type where
  | inst (klass : ClassData) (fields : List (String × Value))
  | strInst (chars : String)

instance : Inhabited Obj := ⟨.strInst ""⟩

/-- An `Environment` (`environment.py`): a value dict plus an optional
enclosing frame, here a reference into the frame store. -/
structure Frame where
  values : List (String × Value)
  enclosing : Option Nat

instance : Inhabited Frame := ⟨⟨[], none⟩⟩

/-- The interpreter's mutable world: the frame store (frame 0 is `globals`),
the object store, and the text printed to stdout.  A reference is the index
an object received when appended to its store, so `enclosing` links always
point to strictly earlier frames and every chain is finite and acyclic. -/
structure St where
  envs : List Frame
  objs : List Obj
  output : List String

def getFrame (st : St) (r : Nat) : Frame := st.envs.getD r default

def setFrame (st : St) (r : Nat) (f : Frame) : St :=
  { st with envs := st.envs.set r f }

/-- `Environment(enclosing)`: append a fresh frame, returning its reference. -/
def envAlloc (st : St) (enclosing : Option Nat) : Nat × St :=
  (st.envs.length, { st with envs := st.envs ++ [⟨[], enclosing⟩] })

/-- `Environment.define`. -/
def envDefine (st : St) (r : Nat) (name : String) (v : Value) : St :=
  let f := getFrame st r
  setFrame st r { f with values := dictSet f.values name v }

/-- `Environment.ancestor`: follow `enclosing` exactly `d` times.  `none`
models the `AttributeError` Python raises when the walk steps off the top of
the chain (`None.enclosing` / `.values` on `None`); `d = 0` never dereferences
and always succeeds. -/
def ancestor (st : St) : Nat → Nat → Option Nat
  | r, 0 => some r
  | r, d + 1 =>
      match (getFrame st r).enclosing with
      | some e => ancestor st e d
      | none => none

/-- `Environment.get_at`: `self.ancestor(distance).values.get(name)` — note
`dict.get`, so a missing binding yields Python `None`, which is the Hoot value
`nil`, not an error. -/
def getAt (st : St) (r d : Nat) (name : String) : Option Value :=
  (ancestor st r d).map (fun r' => (dictGet (getFrame st r').values name).getD .vnil)

/-- `Environment.assign_at`: write into the frame `d` hops out. -/
def assignAt (st : St) (r d : Nat) (name : String) (v : Value) : Option St :=
  (ancestor st r d).map (fun r' => envDefine st r' name v)

/-- Non-local signals unwinding the evaluator: Hoot's `RuntimeError`, its
subclass `BreakJump` (`error.py`), `ReturnBubble` (`callable.py`), and
`fatal` for Python-level exceptions the interpreter never catches (plus the
out-of-fuel artifact of this embedding, unreachable at the fuels used). -/
inductive Signal : Type where
  | rtErr (msg : String)
  | brk
  | ret (v : Value)
  | fatal (msg : String)

/-- `Environment.get` (chained lookup), fuel-indexed; `enclosing` links
strictly decrease, so `st.envs.length + 1` steps always suffice. -/
def envGetAux (st : St) : Nat → Nat → String → Except Signal Value
  | 0, _, _ => .error (.fatal "environment chain fuel exhausted")
  | fuel + 1, r, name =>
      let f := getFrame st r
      match dictGet f.values name with
      | some v => .ok v
      | none =>
          match f.enclosing with
          | some e => envGetAux st fuel e name
          | none => .error (.rtErr ("Undefined variable '" ++ name ++ "'."))

def envGet (st : St) (r : Nat) (name : String) : Except Signal Value :=
  envGetAux st (st.envs.length + 1) r name

/-- `Environment.assign` (chained assignment). -/
def envAssignAux (st : St) : Nat → Nat → String → Value → Except Signal St
  | 0, _, _, _ => .error (.fatal "environment chain fuel exhausted")
  | fuel + 1, r, name, v =>
      let f := getFrame st r
      match dictGet f.values name with
      | some _ => .ok (setFrame st r { f with values := dictSet f.values name v })
      | none =>
          match f.enclosing with
          | some e => envAssignAux st fuel e name v
          | none => .error (.rtErr ("Undefined variable '" ++ name ++ "'."))

def envAssign (st : St) (r : Nat) (name : String) (v : Value) :
    Except Signal St :=
  envAssignAux st (st.envs.length + 1) r name v

/-- `Interpreter.is_truthy`: `None` and `False` are falsey, all else truthy. -/
def isTruthy : Value → Bool
  | .vnil => false
  | .vbool b => b
  | _ => true

/-- `Interpreter.is_equal` is `left == right`, Python's `==` on the runtime
representations: structural on `None`/`bool`/`float`/`str`, identity on
objects (no `__eq__` overrides), and — because Python's `bool` is a subclass
of `int` — a boolean equals the number `1.0` or `0.0` it stands for.
Function and class values are Python objects compared by identity; no claim
compares an aliased pair, so those comparisons are modelled as `false`. -/
def isEqual : Value → Value → Bool
  | .vnil, .vnil => true
  | .vbool a, .vbool b => a == b
  | .vbool a, .vnum q => q == (if a then 1 else 0)
  | .vnum q, .vbool a => q == (if a then 1 else 0)
  | .vnum a, .vnum b => a == b
  | .vstr a, .vstr b => a == b
  | .vref a, .vref b => a == b
  | .vnative a, .vnative b => a == b
  | _, _ => false

/-- `HootClass.find_method`: own table first, then the superclass chain. -/
def findMethod : ClassData → String → Option FunData
  | .mk _ superclass methods, name =>
      match dictGet methods name with
      | some f => some f
      | none =>
          match superclass with
          | some s => findMethod s name
          | none => none

/-- `HootFunction.bind`: a fresh frame over the closure defining `this`. -/
def bindFun (st : St) (f : FunData) (instance_ : Value) : FunData × St :=
  let (envRef, st) := envAlloc st (some f.closure)
  let st := envDefine st envRef "this" instance_
  ({ f with closure := envRef }, st)

/-- Python `str(float)` for the values in scope: an integral double prints as
`<n>.0` (e.g. `str(3.0) = "3.0"`).  No claim prints a non-integral number;
the binary-float repr Python would use there is out of scope and rendered
from the exact rational instead. -/
def pyFloatStr (q : Rat) : String :=
  if q.den == 1 then toString q.num ++ ".0"
  else toString q.num ++ "/" ++ toString q.den

/-- Python `str(value)` on runtime values: `str(True) = "True"`,
`str(False) = "False"`, `str(None) = "None"`; strings verbatim; objects by
their `__repr__` (`HootInstance`: `"<name> instance"`; `HootFunction`:
`"<fn name>"`; `HootClass`: its name; `StringInstance`: its joined elements;
every native callable defines `__repr__` as `"<native fn>"`). -/
def pyStr (st : St) : Value → String
  | .vnil => "None"
  | .vbool b => if b then "True" else "False"
  | .vnum q => pyFloatStr q
  | .vstr s => s
  | .vfun f => "<fn " ++ f.name ++ ">"
  | .vclass c => c.name
  | .vref r =>
      match st.objs.getD r default with
      | .inst klass _ => klass.name ++ " instance"
      | .strInst s => s
  | .vnative _ => "<native fn>"

/-- `Interpreter.stringify`: `'nil'` for `None`, else `str(value)`. -/
def stringify (st : St) (v : Value) : String :=
  match v with
  | .vnil => "nil"
  | _ => pyStr st v

/-- `arity` of each native callable (`native.py`); `-1` disables checking. -/
def nativeArity : NativeKind → Int
  | .input => 1
  | .read => 2
  | .write => 4
  | .clock => 0
  | .delay => 2
  | .request => 5
  | .stringDT => 1
  | .listDT => -1
  | .mapDT => 0
  | .strAt _ => 1
  | .strAlter _ => 2
  | .strLength _ => 0

/-- `hasattr(callee, 'call')`: true exactly for functions, classes and
native callables. -/
def hasCall : Value → Bool
  | .vfun _ => true
  | .vclass _ => true
  | .vnative _ => true
  | _ => false

/-- `callee.arity(self, arguments)`: parameter count for a function; the
`init` arity (or 0) for a class; the table above for natives.  Unreachable
for other values (`hasattr` is checked first). -/
def arityOf : Value → Int
  | .vfun f => f.params.length
  | .vclass c =>
      match findMethod c "init" with
      | some init => init.params.length
      | none => 0
  | .vnative k => nativeArity k
  | _ => 0

/-- The value of a `Literal` node. -/
def litToValue : LitVal → Value
  | .nil => .vnil
  | .bool b => .vbool b
  | .num q => .vnum q
  | .str s => .vstr s

/-- `type(v) == StringInstance` and `''.join(v.elements)` rolled together:
the joined characters when `v` references a `StringInstance`, else `none`. -/
def strInstChars (st : St) : Value → Option String
  | .vref r =>
      match st.objs.getD r default with
      | .strInst s => some s
      | _ => none
  | _ => none

/-- `StringInstance(text, operator)`: a fresh string-instance in the store. -/
def allocStrInst (st : St) (s : String) : (Except Signal Value) × St :=
  (.ok (.vref st.objs.length), { st with objs := st.objs ++ [.strInst s] })

/-- The `+` branch of `Interpreter.visit_binary_expr` (lines 213-224), in
source order: two primitive strings or two floats add directly; then the
three `StringInstance` combinations each build a *new* `StringInstance`;
anything else raises.  A float next to a `StringInstance` reaches the
`raise`. -/
def evalPlus (st : St) (l r : Value) : (Except Signal Value) × St :=
  match l, r with
  | .vstr a, .vstr b => (.ok (.vstr (a ++ b)), st)
  | .vnum a, .vnum b => (.ok (.vnum (a + b)), st)
  | l, r =>
      match strInstChars st l, strInstChars st r with
      | some a, some b => allocStrInst st (a ++ b)
      | _, _ =>
        match l, strInstChars st r with
        | .vstr a, some b => allocStrInst st (a ++ b)
        | _, _ =>
          match strInstChars st l, r with
          | some a, .vstr b => allocStrInst st (a ++ b)
          | _, _ =>
              (.error (.rtErr "Operands must be two numbers or two strings."), st)

/-- The non-`+` operator arms of `Interpreter.visit_binary_expr`.  Arithmetic
and comparisons require two floats (`check_number_operands`), equality goes
through `is_equal`; an operator outside the parser's set falls off the end of
the Python method, returning `None`.  `left / right` with a zero divisor
raises `ZeroDivisionError` in Python (floats do not return inf here), an
exception nothing in the interpreter catches. -/
def evalBinaryOp (st : St) (op : TokenType) (l r : Value) :
    (Except Signal Value) × St :=
  match op with
  | .PLUS => evalPlus st l r
  | .BANG_EQUAL => (.ok (.vbool (!(isEqual l r))), st)
  | .EQUAL_EQUAL => (.ok (.vbool (isEqual l r)), st)
  | _ =>
    match l, r with
    | .vnum a, .vnum b =>
        match op with
        | .MINUS => (.ok (.vnum (a - b)), st)
        | .SLASH =>
            if b == 0 then
              (.error (.fatal "ZeroDivisionError: float division by zero"), st)
            else (.ok (.vnum (a / b)), st)
        | .STAR => (.ok (.vnum (a * b)), st)
        | .GREATER => (.ok (.vbool (decide (a > b))), st)
        | .GREATER_EQUAL => (.ok (.vbool (decide (a ≥ b))), st)
        | .LESS => (.ok (.vbool (decide (a < b))), st)
        | .LESS_EQUAL => (.ok (.vbool (decide (a ≤ b))), st)
        | _ => (.ok .vnil, st)
    | _, _ =>
        match op with
        | .MINUS | .SLASH | .STAR | .GREATER | .GREATER_EQUAL | .LESS
        | .LESS_EQUAL =>
            (.error (.rtErr "Operand must be a number"), st)
        | _ => (.ok .vnil, st)

/-- The resolver's depth table as handed to the interpreter
(`Interpreter.locals`, keyed by expression-node identity). -/
abbrev Locals := List (Nat × Nat)

/-- `self.locals[expr] if expr in self.locals else None`. -/
def lookupLocal (L : Locals) (id : Nat) : Option Nat :=
  (L.find? (fun p => p.1 == id)).map (fun p => p.2)

/-- `Interpreter.look_up_variable`: distanced `get_at` when the resolver
recorded a depth, else chained `get` on globals (frame 0). -/
def lookUpVariable (L : Locals) (st : St) (env : Nat) (id : Nat)
    (name : String) : Except Signal Value :=
  match lookupLocal L id with
  | some d =>
      match getAt st env d name with
      | some v => .ok v
      | none => .error (.fatal "AttributeError: 'NoneType' object has no attribute 'values'")
  | none => envGet st 0 name

/-- Native `call` bodies.  The spec (sections 1 and 4.7) places native
built-in bodies out of scope — they do real time/file/network I/O — so all
are modelled as an uncatchable marker, except `string(x)`
(`StringDataType.call`), which merely wraps `str(x)` in a fresh
`StringInstance`. -/
def nativeCall (st : St) (k : NativeKind) (args : List Value) :
    (Except Signal Value) × St :=
  match k with
  | .stringDT =>
      (.ok (.vref st.objs.length),
        { st with objs := st.objs ++ [.strInst (pyStr st (args.getD 0 .vnil))] })
  | _ => (.error (.fatal "native built-in body not modelled (out of scope)"), st)

/-- The frame-and-parameter setup of `HootFunction.call` before the body runs:
a fresh environment over the closure with each parameter bound to its
argument (argument count was arity-checked by `visit_call_expr`). -/
def funCallSetup (st : St) (f : FunData) (args : List Value) : Nat × St :=
  let (envRef, st) := envAlloc st (some f.closure)
  (envRef, (f.params.zip args).foldl
    (fun st pa => envDefine st envRef pa.1 pa.2) st)

mutual

/-- The expression arms of the `Interpreter` visitor (`evaluate`). -/
def evalExpr (L : Locals) : Nat → St → Nat → Expr → (Except Signal Value) × St
  | 0, st, _, _ => (.error (.fatal "fuel exhausted"), st)
  | n + 1, st, env, e =>
    match e with
    | .literal v => (.ok (litToValue v), st)
    | .grouping inner => evalExpr L n st env inner
    | .letiable id name => (lookUpVariable L st env id name, st)
    | .thisE id => (lookUpVariable L st env id "this", st)
    | .assign id name value =>
        match evalExpr L n st env value with
        | (.ok v, st) =>
            (match lookupLocal L id with
             | some d =>
                 match assignAt st env d name v with
                 | some st => (.ok v, st)
                 | none =>
                     (.error (.fatal "AttributeError: 'NoneType' object has no attribute 'values'"), st)
             | none =>
                 match envAssign st 0 name v with
                 | .ok st => (.ok v, st)
                 | .error s => (.error s, st))
        | r => r
    | .binary l op r =>
        match evalExpr L n st env l with
        | (.ok lv, st) =>
            (match evalExpr L n st env r with
             | (.ok rv, st) => evalBinaryOp st op lv rv
             | r => r)
        | r => r
    | .logical l op r =>
        match evalExpr L n st env l with
        | (.ok lv, st) =>
            if op == .OR then
              if isTruthy lv then (.ok lv, st) else evalExpr L n st env r
            else
              if !(isTruthy lv) then (.ok lv, st) else evalExpr L n st env r
        | r => r
    | .unary op right =>
        match evalExpr L n st env right with
        | (.ok v, st) =>
            (match op with
             | .MINUS =>
                 match v with
                 | .vnum q => (.ok (.vnum (-q)), st)
                 | _ => (.error (.rtErr "Operand must be a number"), st)
             | .BANG => (.ok (.vbool (!(isTruthy v))), st)
             | _ => (.ok .vnil, st))
        | r => r
    | .call callee args =>
        match evalExpr L n st env callee with
        | (.ok cv, st) =>
            (match evalArgs L n st env args with
             | (.ok vs, st) =>
                 if !(hasCall cv) then
                   (.error (.rtErr "Can only call functions and classes."), st)
                 else
                   let ar := arityOf cv
                   if (vs.length : Int) != ar && ar != -1 then
                     (.error (.rtErr ("Expected " ++ toString ar ++
                       " arguments but got " ++ toString vs.length ++ ".")), st)
                   else
                     callValue L n st cv vs
             | (.error s, st) => (.error s, st))
        | r => r
    | .get obj name =>
        match evalExpr L n st env obj with
        | (.ok ov, st) =>
            (match ov with
             | .vref r =>
                 -- isinstance(obj, HootInstance) holds for both heap kinds
                 match st.objs.getD r default with
                 | .inst klass fields =>
                     -- HootInstance.get: field, else bound method, else error
                     (match dictGet fields name with
                      | some v => (.ok v, st)
                      | none =>
                          match findMethod klass name with
                          | some m =>
                              let (bf, st) := bindFun st m (.vref r)
                              (.ok (.vfun bf), st)
                          | none =>
                              (.error (.rtErr ("Undefined property '" ++ name ++ "'.")), st))
                 | .strInst _ =>
                     -- StringInstance.get: the three method closures, else error
                     if name == "at" then (.ok (.vnative (.strAt r)), st)
                     else if name == "alter" then (.ok (.vnative (.strAlter r)), st)
                     else if name == "length" then (.ok (.vnative (.strLength r)), st)
                     else
                       (.error (.rtErr ("Can't call '" ++ name ++ "' on a string.")), st)
             | _ => (.error (.rtErr "Only instances have properties"), st))
        | r => r
    | .setE obj name value =>
        match evalExpr L n st env obj with
        | (.ok ov, st) =>
            -- `type(obj) == HootInstance` is an exact-class test: it rejects
            -- StringInstance (a subclass) as well as every non-instance.
            (match ov with
             | .vref r =>
                 match st.objs.getD r default with
                 | .inst klass fields =>
                     (match evalExpr L n st env value with
                      | (.ok v, st) =>
                          (.ok v,
                            { st with objs :=
                                st.objs.set r (.inst klass (dictSet fields name v)) })
                      | r => r)
                 | .strInst _ => (.error (.rtErr "Only instances have fields."), st)
             | _ => (.error (.rtErr "Only instances have fields."), st))
        | r => r
    | .superE id method =>
        -- visit_super_expr: `self.locals.get(expr) or -1` — Python `or`
        -- maps both a missing entry and a recorded depth of 0 to -1.
        let distance : Int :=
          match lookupLocal L id with
          | some d => if d == 0 then -1 else (d : Int)
          | none => -1
        if distance == -1 then
          (.error (.rtErr "Distance error. Probably because an earlier resolving problem."), st)
        else
          match getAt st env distance.toNat "super" with
          | some (.vclass superclass) =>
              (match getAt st env (distance.toNat - 1) "this" with
               | some obj =>
                   (match findMethod superclass method with
                    | some m =>
                        let (bf, st) := bindFun st m obj
                        (.ok (.vfun bf), st)
                    | none =>
                        (.error (.rtErr ("Undefined property '" ++ method ++ "'.")), st))
               | none =>
                   (.error (.fatal "AttributeError: 'NoneType' object has no attribute 'values'"), st))
          | some _ => (.error (.fatal "AttributeError: no attribute 'find_method'"), st)
          | none =>
              (.error (.fatal "AttributeError: 'NoneType' object has no attribute 'values'"), st)

  termination_by structural fuel _ _ _ => fuel
/-- Left-to-right evaluation of a call's argument list. -/
def evalArgs (L : Locals) : Nat → St → Nat → List Expr →
    (Except Signal (List Value)) × St
  | 0, st, _, _ => (.error (.fatal "fuel exhausted"), st)
  | _ + 1, st, _, [] => (.ok [], st)
  | n + 1, st, env, e :: rest =>
      match evalExpr L n st env e with
      | (.ok v, st) =>
          (match evalArgs L n st env rest with
           | (.ok vs, st) => (.ok (v :: vs), st)
           | (.error s, st) => (.error s, st))
      | (.error s, st) => (.error s, st)

  termination_by structural fuel _ _ _ => fuel
/-- Dispatch of `visit_call_expr`'s final `function.call(...)`. -/
def callValue (L : Locals) : Nat → St → Value → List Value →
    (Except Signal Value) × St
  | 0, st, _, _ => (.error (.fatal "fuel exhausted"), st)
  | n + 1, st, callee, args =>
      match callee with
      | .vfun f => callFun L n st f args
      | .vclass c => callClass L n st c args
      | .vnative k => nativeCall st k args
      | _ => (.error (.fatal "AttributeError: no attribute 'call'"), st)

  termination_by structural fuel _ _ _ => fuel
/-- `HootFunction.call`: bind parameters over the closure, run the body;
`ReturnBubble` carries the return value; an initializer answers
`self.closure.get_at(0, "this")` on both exits, ignoring any carried value;
a non-initializer falling off the end returns Python `None` (nil). -/
def callFun (L : Locals) : Nat → St → FunData → List Value →
    (Except Signal Value) × St
  | 0, st, _, _ => (.error (.fatal "fuel exhausted"), st)
  | n + 1, st, f, args =>
      let (envRef, st1) := funCallSetup st f args
      match execBlock L n st1 envRef f.body with
      | (.ok _, st') =>
          if f.is_initializer then
            match getAt st' f.closure 0 "this" with
            | some v => (.ok v, st')
            | none => (.error (.fatal "unreachable: ancestor(0)"), st')
          else (.ok .vnil, st')
      | (.error (.ret v), st') =>
          if f.is_initializer then
            match getAt st' f.closure 0 "this" with
            | some v => (.ok v, st')
            | none => (.error (.fatal "unreachable: ancestor(0)"), st')
          else (.ok v, st')
      | (.error s, st') => (.error s, st')

  termination_by structural fuel _ _ _ => fuel
/-- `HootClass.call`: construct the instance, call a bound `init` if any
(its result discarded), and return the fresh instance. -/
def callClass (L : Locals) : Nat → St → ClassData → List Value →
    (Except Signal Value) × St
  | 0, st, _, _ => (.error (.fatal "fuel exhausted"), st)
  | n + 1, st, c, args =>
      let r := st.objs.length
      let st := { st with objs := st.objs ++ [.inst c []] }
      match findMethod c "init" with
      | some init =>
          let (bound, st) := bindFun st init (.vref r)
          (match callFun L n st bound args with
           | (.ok _, st) => (.ok (.vref r), st)
           | (.error s, st) => (.error s, st))
      | none => (.ok (.vref r), st)

  termination_by structural fuel _ _ _ => fuel
/-- The statement arms of the `Interpreter` visitor (`execute`). -/
def execStmt (L : Locals) : Nat → St → Nat → Stmt → (Except Signal Unit) × St
  | 0, st, _, _ => (.error (.fatal "fuel exhausted"), st)
  | n + 1, st, env, s =>
    match s with
    | .expression e =>
        (match evalExpr L n st env e with
         | (.ok _, st) => (.ok (), st)
         | (.error sg, st) => (.error sg, st))
    | .print e =>
        (match evalExpr L n st env e with
         | (.ok v, st) => (.ok (), { st with output := st.output ++ [stringify st v] })
         | (.error sg, st) => (.error sg, st))
    | .letS name initializer =>
        (match initializer with
         | some init =>
             (match evalExpr L n st env init with
              | (.ok v, st) => (.ok (), envDefine st env name v)
              | (.error sg, st) => (.error sg, st))
         | none => (.ok (), envDefine st env name .vnil))
    | .block stmts =>
        -- visit_block_stmt: a fresh environment enclosing the current one;
        -- execute_block's save/restore is the env argument going out of scope
        let (newEnv, st) := envAlloc st (some env)
        execBlock L n st newEnv stmts
    | .ifS cond thenB elseB =>
        (match evalExpr L n st env cond with
         | (.ok v, st) =>
             if isTruthy v then execStmt L n st env thenB
             else
               match elseB with
               | some e => execStmt L n st env e
               | none => (.ok (), st)
         | (.error sg, st) => (.error sg, st))
    | .whileS cond body =>
        (match evalExpr L n st env cond with
         | (.ok v, st) =>
             if isTruthy v then
               match execStmt L n st env body with
               | (.ok _, st) => execStmt L n st env (.whileS cond body)
               | (.error .brk, st) => (.ok (), st)
               | (.error sg, st) => (.error sg, st)
             else (.ok (), st)
         | (.error sg, st) => (.error sg, st))
    | .breakS => (.error .brk, st)
    | .returnS value =>
        (match value with
         | some e =>
             (match evalExpr L n st env e with
              | (.ok v, st) => (.error (.ret v), st)
              | (.error sg, st) => (.error sg, st))
         | none => (.error (.ret .vnil), st))
    | .function name params body =>
        (.ok (), envDefine st env name (.vfun ⟨name, params, body, env, false⟩))
    | .classS name superclass methods =>
        -- visit_class_stmt
        match superclass with
        | some (supId, supName) =>
            (match evalExpr L n st env (.letiable supId supName) with
             | (.ok sv, st) =>
                 (match sv with
                  | .vclass superc =>
                      let st := envDefine st env name .vnil
                      let (menv, st) := envAlloc st (some env)
                      let st := envDefine st menv "super" (.vclass superc)
                      let ms := methods.map (fun m =>
                        (m.1, FunData.mk m.1 m.2.1 m.2.2 menv (m.1 == "init")))
                      let klass := ClassData.mk name (some superc) ms
                      (match envAssign st env name (.vclass klass) with
                       | .ok st => (.ok (), st)
                       | .error sg => (.error sg, st))
                  | _ => (.error (.rtErr "Superclass must be a class."), st))
             | (.error sg, st) => (.error sg, st))
        | none =>
            let st := envDefine st env name .vnil
            let ms := methods.map (fun m =>
              (m.1, FunData.mk m.1 m.2.1 m.2.2 env (m.1 == "init")))
            let klass := ClassData.mk name none ms
            (match envAssign st env name (.vclass klass) with
             | .ok st => (.ok (), st)
             | .error sg => (.error sg, st))

  termination_by structural fuel _ _ _ => fuel
/-- Sequential execution of a statement list in a given environment
(the loop of `execute_block` and of `interpret`). -/
def execBlock (L : Locals) : Nat → St → Nat → List Stmt →
    (Except Signal Unit) × St
  | 0, st, _, _ => (.error (.fatal "fuel exhausted"), st)
  | _ + 1, st, _, [] => (.ok (), st)
  | n + 1, st, env, s :: rest =>
      match execStmt L n st env s with
      | (.ok _, st) => execBlock L n st env rest
      | (.error sg, st) => (.error sg, st)

  termination_by structural fuel _ _ _ => fuel
end

/-- `Interpreter.__init__`: globals (frame 0) pre-populated with the nine
native callables, in source order. -/
def initSt : St :=
  { envs := [⟨[("input", .vnative .input), ("read", .vnative .read),
              ("write", .vnative .write), ("clock", .vnative .clock),
              ("delay", .vnative .delay), ("request", .vnative .request),
              ("string", .vnative .stringDT), ("list", .vnative .listDT),
              ("map", .vnative .mapDT)], none⟩]
    objs := []
    output := [] }

/-- How `Interpreter.interpret`'s `main` coroutine ends: normally; with a
`RuntimeError` caught by its `except RuntimeError` clause (`BreakJump` is a
subclass, so an escaped break is *caught* here, reported as "Breaking."); or
with an exception it does not catch — in particular an escaped
`ReturnBubble`, which subclasses `Exception` directly and crashes the
process. -/
inductive InterpOutcome where
  | finished
  | runtimeError (msg : String)
  | crashed (msg : String)
deriving DecidableEq, Repr

/-- `Interpreter.interpret` on the top-level statement list. -/
def interpretProgram (L : Locals) (fuel : Nat) (stmts : List Stmt) :
    InterpOutcome × St :=
  match execBlock L fuel initSt 0 stmts with
  | (.ok _, st) => (.finished, st)
  | (.error (.rtErr m), st) => (.runtimeError m, st)
  | (.error .brk, st) => (.runtimeError "Breaking.", st)
  | (.error (.ret _), st) => (.crashed "ReturnBubble", st)
  | (.error (.fatal m), st) => (.crashed m, st)

/-- `Hoot.run` from the resolver on (parsing already done): resolve; stop if
any resolve error was reported (`had_error`), else interpret with the depth
table.  Returns the resolver's error messages and, when execution happened,
its outcome and stdout text. -/
def runProgram (fuel : Nat) (stmts : List Stmt) :
    Except String (List String × Option (InterpOutcome × List String)) := do
  let rst ← resolveProgram fuel stmts
  if rst.errors.isEmpty then
    let (out, st) := interpretProgram rst.locals fuel stmts
    pure (rst.errors, some (out, st.output))
  else
    pure (rst.errors, none)

/-! ## Scanner (`scanner.py`) -/

/-- Scanner state: source characters, token start, cursor, line, emitted
tokens, and the messages passed to the error reporter. -/
structure ScanState where
  source : List Char
  start : Nat
  current : Nat
  line : Nat
  tokens : List Token
  errors : List String

def ScanState.isAtEnd (st : ScanState) : Bool :=
  st.current ≥ st.source.length

def ScanState.peek (st : ScanState) : Char :=
  if st.isAtEnd then '\x00' else st.source.getD st.current '\x00'

def ScanState.peekNext (st : ScanState) : Char :=
  if st.current + 1 ≥ st.source.length then '\x00'
  else st.source.getD (st.current + 1) '\x00'

/-- `Scanner.advance`: step the cursor, return the consumed character. -/
def ScanState.advance (st : ScanState) : Char × ScanState :=
  ({ st with current := st.current + 1 }.source.getD st.current '\x00',
   { st with current := st.current + 1 })

/-- `Scanner.match`. -/
def ScanState.matchC (st : ScanState) (expected : Char) : Bool × ScanState :=
  if st.isAtEnd then (false, st)
  else if st.source.getD st.current '\x00' != expected then (false, st)
  else (true, { st with current := st.current + 1 })

/-- `self.source[self.start:self.current]`. -/
def ScanState.lexemeText (st : ScanState) : String :=
  String.mk ((st.source.drop st.start).take (st.current - st.start))

/-- `Scanner.add_token`. -/
def ScanState.addToken (st : ScanState) (type_ : TokenType)
    (literal : Option PyLit) : ScanState :=
  { st with tokens := st.tokens ++ [⟨type_, st.lexemeText, literal, st.line⟩] }

def ScanState.report (st : ScanState) (msg : String) : ScanState :=
  { st with errors := st.errors ++ [msg] }

/-- Python `str.isdigit` on the characters in scope: the ASCII digits. -/
def pyIsDigit (c : Char) : Bool := c.isDigit

/-- Python `str.isalpha`: Unicode letters; for the ASCII sources in scope,
exactly the ASCII letters — and *not* the underscore. -/
def pyIsAlpha (c : Char) : Bool := c.isAlpha

/-- `Scanner.is_alpha`: `c.isalpha() or c == '_'` — the scanner's own helper
*does* accept an underscore. -/
def scanner_is_alpha (c : Char) : Bool := pyIsAlpha c || c == '_'

/-- `Scanner.is_alpha_numeric`. -/
def scanner_is_alpha_numeric (c : Char) : Bool :=
  pyIsDigit c || scanner_is_alpha c

/-- `Scanner.keywords`. -/
def keywords : List (String × TokenType) :=
  [("and", .AND), ("break", .BREAK), ("class", .CLASS), ("else", .ELSE),
   ("false", .FALSE), ("for", .FOR), ("fun", .FUN), ("if", .IF),
   ("nil", .NIL), ("or", .OR), ("print", .PRINT), ("return", .RETURN),
   ("super", .SUPER), ("this", .THIS), ("true", .TRUE), ("let", .LET),
   ("while", .WHILE)]

/-- A consume-while-predicate loop (`while p(self.peek()): self.advance()`),
fuel-indexed; each step advances the cursor, so `source.length + 1` steps
always suffice. -/
def consumeWhile (p : ScanState → Bool) : Nat → ScanState → ScanState
  | 0, st => st
  | n + 1, st => if p st then consumeWhile p n (st.advance).2 else st

/-- `Scanner.identifier`. -/
def scanIdentifier (st : ScanState) : ScanState :=
  let st := consumeWhile (fun st => scanner_is_alpha_numeric st.peek)
    (st.source.length + 1) st
  let text := st.lexemeText
  let type_ := (dictGet keywords text).getD .IDENTIFIER
  st.addToken type_ none

def digitsToNat (cs : List Char) : Nat :=
  cs.foldl (fun a c => a * 10 + (c.toNat - 48)) 0

/-- `float(text)` for a decimal numeral `digits(.digits)?`; such small
decimal values are in scope exactly (see the header note on `Rat`). -/
def parseDecimal (cs : List Char) : Rat :=
  let ip := cs.takeWhile pyIsDigit
  let rest := cs.dropWhile pyIsDigit
  match rest with
  | '.' :: fp => (digitsToNat ip : Rat) + (digitsToNat fp : Rat) / ((10 : Rat) ^ fp.length)
  | _ => (digitsToNat ip : Rat)

/-- `Scanner.number`: integer part; a `.` is consumed only when followed by a
digit; fraction part. -/
def scanNumber (st : ScanState) : ScanState :=
  let st := consumeWhile (fun st => pyIsDigit st.peek) (st.source.length + 1) st
  let st :=
    if st.peek == '.' && pyIsDigit st.peekNext then (st.advance).2 else st
  let st := consumeWhile (fun st => pyIsDigit st.peek) (st.source.length + 1) st
  st.addToken .NUMBER (some (.num (parseDecimal
    ((st.source.drop st.start).take (st.current - st.start)))))

/-- `Scanner.string`: scan to the closing quote (newlines allowed, line
counter updated); at end of input report "Unterminated string." and emit no
token; otherwise the payload is the text between the quotes. -/
def scanString (st : ScanState) : ScanState :=
  let st := consumeWhile (fun st => st.peek != '"' && !st.isAtEnd)
    (st.source.length + 1)
    st
  -- the line counter update inside the loop is folded in afterwards:
  -- every newline consumed by the loop bumps `line` exactly once
  let consumedNewlines :=
    (((st.source.drop st.start).take (st.current - st.start)).filter
      (fun c => c == '\n')).length
  let st := { st with line := st.line + consumedNewlines }
  if st.isAtEnd then
    st.report "Unterminated string."
  else
    let st := (st.advance).2
    let value := String.mk ((st.source.drop (st.start + 1)).take
      (st.current - 1 - (st.start + 1)))
    st.addToken .STRING (some (.str value))

/-- `Scanner.scan_token`: the dispatch on the consumed character.  Note the
default branch tests `c.isdigit()` then **`c.isalpha()`** — the Python
built-in, not the scanner's own `is_alpha` helper — before reporting
"Unexpected character.". -/
def scanToken (st : ScanState) : ScanState :=
  let (c, st) := st.advance
  if c == '(' then st.addToken .LEFT_PAREN none
  else if c == ')' then st.addToken .RIGHT_PAREN none
  else if c == '{' then st.addToken .LEFT_BRACE none
  else if c == '}' then st.addToken .RIGHT_BRACE none
  else if c == ',' then st.addToken .COMMA none
  else if c == '.' then st.addToken .DOT none
  else if c == '-' then st.addToken .MINUS none
  else if c == '+' then st.addToken .PLUS none
  else if c == ';' then st.addToken .SEMICOLON none
  else if c == '*' then st.addToken .STAR none
  else if c == '!' then
    let (m, st) := st.matchC '='
    st.addToken (if m then .BANG_EQUAL else .BANG) none
  else if c == '=' then
    let (m, st) := st.matchC '='
    st.addToken (if m then .EQUAL_EQUAL else .EQUAL) none
  else if c == '<' then
    let (m, st) := st.matchC '='
    st.addToken (if m then .LESS_EQUAL else .LESS) none
  else if c == '>' then
    let (m, st) := st.matchC '='
    st.addToken (if m then .GREATER_EQUAL else .GREATER) none
  else if c == '/' then
    let (m, st) := st.matchC '/'
    if m then
      consumeWhile (fun st => st.peek != '\n' && !st.isAtEnd)
        (st.source.length + 1) st
    else st.addToken .SLASH none
  else if c == ' ' || c == '\x0d' || c == '\t' then st
  else if c == '\n' then { st with line := st.line + 1 }
  else if c == '"' then scanString st
  else if pyIsDigit c then scanNumber st
  else if pyIsAlpha c then scanIdentifier st
  else st.report "Unexpected character."

/-- `Scanner.scan_tokens`' loop; every `scan_token` advances the cursor, so
`source.length + 1` iterations suffice. -/
def scanLoop : Nat → ScanState → ScanState
  | 0, st => st
  | n + 1, st =>
      if st.isAtEnd then st
      else scanLoop n (scanToken { st with start := st.current })

/-- `Scanner.scan_tokens` on a source text: the token vector (with the
synthetic EOF) and the reported error messages. -/
def scanTokens (src : String) : List Token × List String :=
  let st := scanLoop (src.length + 1)
    { source := src.data, start := 0, current := 0, line := 1,
      tokens := [], errors := [] }
  (st.tokens ++ [⟨.EOF, "", none, st.line⟩], st.errors)

/-! ## Parser (`parser_.py`) -/

instance : Inhabited Token := ⟨⟨.EOF, "", none, 0⟩⟩

/-- Parser state: the token list, the cursor, a counter handing each
`Letiable`/`Assign`/`This`/`Super` node its identity (see `Expr`), and the
reported error messages. -/
structure PState where
  tokens : List Token
  current : Nat
  nextId : Nat
  errors : List String

/-- A parsing step: `none` in the first component models a `ParseError` in
flight (the Python exception); the state (cursor, errors) survives the
unwind, exactly as the mutable `Parser` object does. -/
def P (α : Type) : Type := PState → Option α × PState

instance : Monad P where
  pure a := fun s => (some a, s)
  bind x f := fun s =>
    match x s with
    | (some a, s') => f a s'
    | (none, s') => (none, s')

def pPeek (s : PState) : Token := s.tokens.getD s.current default

def pPrevious (s : PState) : Token := s.tokens.getD (s.current - 1) default

def pIsAtEnd (s : PState) : Bool := (pPeek s).type_ == .EOF

/-- `Parser.advance` as a state step. -/
def pAdvance (s : PState) : PState :=
  if pIsAtEnd s then s else { s with current := s.current + 1 }

def peekP : P Token := fun s => (some (pPeek s), s)

def previousP : P Token := fun s => (some (pPrevious s), s)

def advanceP : P Token := fun s =>
  let s' := pAdvance s
  (some (pPrevious s'), s')

def checkP (t : TokenType) : P Bool := fun s =>
  (some (!(pIsAtEnd s) && (pPeek s).type_ == t), s)

/-- `Parser.match`. -/
def matchP : List TokenType → P Bool
  | [] => pure false
  | t :: ts => do
      if (← checkP t) then
        let _ ← advanceP
        pure true
      else matchP ts

/-- `Parser.error` *without* a raise: report and continue (used for the
255-argument overflows and the invalid assignment target). -/
def recordError (msg : String) : P Unit := fun s =>
  (some (), { s with errors := s.errors ++ [msg] })

/-- `raise self.error(token, message)`. -/
def raiseError {α : Type} (msg : String) : P α := fun s =>
  (none, { s with errors := s.errors ++ [msg] })

/-- `Parser.consume`. -/
def consumeP (t : TokenType) (msg : String) : P Token := do
  if (← checkP t) then advanceP else raiseError msg

/-- A fresh node identity (Python: each constructed AST node is a new
object). -/
def freshId : P Nat := fun s => (some s.nextId, { s with nextId := s.nextId + 1 })

/-- The membership test at `parser_.py` line 371,
`self.peek() in [TokenType.CLASS, …]`: its left operand is the `Token`
*object* `self.peek()` returns while the list holds `TokenType` enum members.
Python's `in` compares with `==`; neither class overrides `__eq__`, so the
comparison is object identity across two distinct types and is `False` for
every token and every member.  (Line 368 correctly compares
`self.previous().type_`.) -/
def pyEqTokenTokenType (_ : Token) (_ : TokenType) : Bool := false

/-- `self.peek() in [CLASS, FUN, LET, FOR, IF, WHILE, BREAK, PRINT, RETURN]`. -/
def tokenInSyncKeywords (t : Token) : Bool :=
  [TokenType.CLASS, .FUN, .LET, .FOR, .IF, .WHILE, .BREAK, .PRINT,
   .RETURN].any (fun ty => pyEqTokenTokenType t ty)

/-- The loop of `Parser.synchronize`: stop at end of input, just past a
semicolon, or when the (always-false, see `pyEqTokenTokenType`) keyword
membership test fires; each pass advances the cursor, so
`tokens.length + 1` iterations suffice. -/
def syncLoop : Nat → PState → PState
  | 0, s => s
  | n + 1, s =>
      if pIsAtEnd s then s
      else if (pPrevious s).type_ == .SEMICOLON then s
      else if tokenInSyncKeywords (pPeek s) then s
      else syncLoop n (pAdvance s)

/-- `Parser.synchronize`: one unconditional advance, then the loop. -/
def synchronize (s : PState) : PState :=
  syncLoop (s.tokens.length + 1) (pAdvance s)

mutual

def expressionP : Nat → P Expr
  | 0 => raiseError "parser fuel exhausted"
  | n + 1 => assignmentP n

def assignmentP : Nat → P Expr
  | 0 => raiseError "parser fuel exhausted"
  | n + 1 => do
      let expr ← orP n
      if (← matchP [.EQUAL]) then
        let value ← assignmentP n
        match expr with
        | .letiable _ name => do
            let i ← freshId
            pure (.assign i name value)
        | .get obj gname => pure (.setE obj gname value)
        | _ => do
            recordError "Invalid assignment target."
            pure expr
      else pure expr

def orP : Nat → P Expr
  | 0 => raiseError "parser fuel exhausted"
  | n + 1 => do
      let e ← andP n
      orLoop n e

def orLoop : Nat → Expr → P Expr
  | 0, _ => raiseError "parser fuel exhausted"
  | n + 1, e => do
      if (← matchP [.OR]) then
        let op ← previousP
        let right ← andP n
        orLoop n (.logical e op.type_ right)
      else pure e

def andP : Nat → P Expr
  | 0 => raiseError "parser fuel exhausted"
  | n + 1 => do
      let e ← equalityP n
      andLoop n e

def andLoop : Nat → Expr → P Expr
  | 0, _ => raiseError "parser fuel exhausted"
  | n + 1, e => do
      if (← matchP [.AND]) then
        let op ← previousP
        let right ← equalityP n
        andLoop n (.logical e op.type_ right)
      else pure e

def equalityP : Nat → P Expr
  | 0 => raiseError "parser fuel exhausted"
  | n + 1 => do
      let e ← comparisonP n
      equalityLoop n e

def equalityLoop : Nat → Expr → P Expr
  | 0, _ => raiseError "parser fuel exhausted"
  | n + 1, e => do
      if (← matchP [.BANG_EQUAL, .EQUAL_EQUAL]) then
        let op ← previousP
        let right ← comparisonP n
        equalityLoop n (.binary e op.type_ right)
      else pure e

def comparisonP : Nat → P Expr
  | 0 => raiseError "parser fuel exhausted"
  | n + 1 => do
      let e ← termP n
      comparisonLoop n e

def comparisonLoop : Nat → Expr → P Expr
  | 0, _ => raiseError "parser fuel exhausted"
  | n + 1, e => do
      if (← matchP [.GREATER, .GREATER_EQUAL, .LESS, .LESS_EQUAL]) then
        let op ← previousP
        let right ← termP n
        comparisonLoop n (.binary e op.type_ right)
      else pure e

def termP : Nat → P Expr
  | 0 => raiseError "parser fuel exhausted"
  | n + 1 => do
      let e ← factorP n
      termLoop n e

def termLoop : Nat → Expr → P Expr
  | 0, _ => raiseError "parser fuel exhausted"
  | n + 1, e => do
      if (← matchP [.MINUS, .PLUS]) then
        let op ← previousP
        let right ← factorP n
        termLoop n (.binary e op.type_ right)
      else pure e

def factorP : Nat → P Expr
  | 0 => raiseError "parser fuel exhausted"
  | n + 1 => do
      let e ← unaryP n
      factorLoop n e

def factorLoop : Nat → Expr → P Expr
  | 0, _ => raiseError "parser fuel exhausted"
  | n + 1, e => do
      if (← matchP [.SLASH, .STAR]) then
        let op ← previousP
        let right ← unaryP n
        factorLoop n (.binary e op.type_ right)
      else pure e

def unaryP : Nat → P Expr
  | 0 => raiseError "parser fuel exhausted"
  | n + 1 => do
      if (← matchP [.BANG, .MINUS]) then
        let op ← previousP
        let right ← unaryP n
        pure (.unary op.type_ right)
      else callP n

def callP : Nat → P Expr
  | 0 => raiseError "parser fuel exhausted"
  | n + 1 => do
      let e ← primaryP n
      callLoop n e

def callLoop : Nat → Expr → P Expr
  | 0, _ => raiseError "parser fuel exhausted"
  | n + 1, e => do
      if (← matchP [.LEFT_PAREN]) then
        let e ← finishCallP n e
        callLoop n e
      else if (← matchP [.DOT]) then
        let name ← consumeP .IDENTIFIER "Expect property name after '.'."
        callLoop n (.get e name.lexeme)
      else pure e

def finishCallP : Nat → Expr → P Expr
  | 0, _ => raiseError "parser fuel exhausted"
  | n + 1, callee => do
      let args ←
        if !(← checkP .RIGHT_PAREN) then do
          let first ← expressionP n
          argLoop n [first]
        else pure []
      let _ ← consumeP .RIGHT_PAREN "Expect ')' after arguments."
      pure (.call callee args)

def argLoop : Nat → List Expr → P (List Expr)
  | 0, _ => raiseError "parser fuel exhausted"
  | n + 1, args => do
      if (← matchP [.COMMA]) then
        if args.length ≥ 255 then
          recordError "Can't have more than 255 arguments."
        let a ← expressionP n
        argLoop n (args ++ [a])
      else pure args

def primaryP : Nat → P Expr
  | 0 => raiseError "parser fuel exhausted"
  | n + 1 => do
      if (← matchP [.FALSE]) then pure (.literal (.bool false))
      else if (← matchP [.TRUE]) then pure (.literal (.bool true))
      else if (← matchP [.NIL]) then pure (.literal .nil)
      else if (← matchP [.NUMBER, .STRING]) then do
        let prev ← previousP
        match prev.literal with
        | some (.num q) => pure (.literal (.num q))
        | some (.str s) => pure (.literal (.str s))
        | none => pure (.literal .nil)
      else if (← matchP [.SUPER]) then do
        let _ ← consumeP .DOT "Expect '.' after 'super'."
        let method ← consumeP .IDENTIFIER "Expect superclass method name."
        let i ← freshId
        pure (.superE i method.lexeme)
      else if (← matchP [.THIS]) then do
        let i ← freshId
        pure (.thisE i)
      else if (← matchP [.IDENTIFIER]) then do
        let prev ← previousP
        let i ← freshId
        pure (.letiable i prev.lexeme)
      else if (← matchP [.LEFT_PAREN]) then do
        let e ← expressionP n
        let _ ← consumeP .RIGHT_PAREN "Expect ')' after expression."
        pure (.grouping e)
      else raiseError "Expect expression."

/-- `Parser.declaration`: the `try` body parses one declaration; on
`ParseError` the handler synchronizes and the method falls through,
*returning Python `None`*. -/
def declarationP : Nat → P (Option Stmt)
  | 0 => raiseError "parser fuel exhausted"
  | n + 1 => fun s =>
      let body : P Stmt := do
        if (← matchP [.CLASS]) then classDeclarationP n
        else if (← matchP [.FUN]) then do
          let f ← functionP n "function"
          pure (.function f.1 f.2.1 f.2.2)
        else if (← matchP [.LET]) then varDeclarationP n
        else statementP n
      match body s with
      | (some st, s') => (some (some st), s')
      | (none, s') => (some none, synchronize s')

def classDeclarationP : Nat → P Stmt
  | 0 => raiseError "parser fuel exhausted"
  | n + 1 => do
      let name ← consumeP .IDENTIFIER "Expect class name."
      let superclass ←
        if (← matchP [.LESS]) then do
          let _ ← consumeP .IDENTIFIER "Expect superclass name"
          let prev ← previousP
          let i ← freshId
          pure (some (i, prev.lexeme))
        else pure none
      let _ ← consumeP .LEFT_BRACE "Expect '\x7b' before class body."
      let methods ← classBodyLoop n []
      let _ ← consumeP .RIGHT_BRACE "Expect '\x7d' after class body."
      pure (.classS name.lexeme superclass methods)

def classBodyLoop : Nat → List (String × List String × List Stmt) →
    P (List (String × List String × List Stmt))
  | 0, _ => raiseError "parser fuel exhausted"
  | n + 1, acc => do
      if !(← checkP .RIGHT_BRACE) && !(← isAtEndP) then do
        let m ← functionP n "method"
        classBodyLoop n (acc ++ [m])
      else pure acc

def functionP : Nat → String → P (String × List String × List Stmt)
  | 0, _ => raiseError "parser fuel exhausted"
  | n + 1, kind => do
      let name ← consumeP .IDENTIFIER ("Expect '" ++ kind ++ "' name.")
      let _ ← consumeP .LEFT_PAREN ("Expect '(' after " ++ kind ++ " name.")
      let params ←
        if !(← checkP .RIGHT_PAREN) then do
          let first ← consumeP .IDENTIFIER "Expect parameter name."
          paramLoop n [first.lexeme]
        else pure []
      let _ ← consumeP .RIGHT_PAREN "Expect ')' after parameters."
      let _ ← consumeP .LEFT_BRACE ("Expect '\x7d' before " ++ kind ++ " body.")
      let body ← blockP n
      pure (name.lexeme, params, body)

def paramLoop : Nat → List String → P (List String)
  | 0, _ => raiseError "parser fuel exhausted"
  | n + 1, params => do
      if (← matchP [.COMMA]) then do
        if params.length ≥ 255 then
          recordError "Can't have more than 255 parameters."
        let p ← consumeP .IDENTIFIER "Expect parameter name."
        paramLoop n (params ++ [p.lexeme])
      else pure params

def statementP : Nat → P Stmt
  | 0 => raiseError "parser fuel exhausted"
  | n + 1 => do
      if (← matchP [.FOR]) then forStatementP n
      else if (← matchP [.IF]) then ifStatementP n
      else if (← matchP [.PRINT]) then printStatementP n
      else if (← matchP [.RETURN]) then returnStatementP n
      else if (← matchP [.WHILE]) then whileStatementP n
      else if (← matchP [.BREAK]) then breakStatementP n
      else if (← matchP [.LEFT_BRACE]) then do
        let stmts ← blockP n
        pure (.block stmts)
      else expressionStatementP n

/-- `Parser.for_statement` (the desugaring described in spec section 4.2). -/
def forStatementP : Nat → P Stmt
  | 0 => raiseError "parser fuel exhausted"
  | n + 1 => do
      let _ ← consumeP .LEFT_PAREN "Expect '(' after 'for'."
      let initializer ←
        if (← matchP [.SEMICOLON]) then pure none
        else if (← matchP [.LET]) then do
          let d ← varDeclarationP n
          pure (some d)
        else do
          let d ← expressionStatementP n
          pure (some d)
      let condition ←
        if !(← checkP .SEMICOLON) then do
          let c ← expressionP n
          pure (some c)
        else pure none
      let _ ← consumeP .SEMICOLON "Expect ';' after loop condition."
      let increment ←
        if !(← checkP .RIGHT_PAREN) then do
          let i ← expressionP n
          pure (some i)
        else pure none
      let _ ← consumeP .RIGHT_PAREN "Expect ')' after for clauses."
      let body ← statementP n
      let body :=
        match increment with
        | some inc => Stmt.block [body, .expression inc]
        | none => body
      let condition := condition.getD (.literal (.bool true))
      let body := Stmt.whileS condition body
      let body :=
        match initializer with
        | some init => Stmt.block [init, body]
        | none => body
      pure body

def ifStatementP : Nat → P Stmt
  | 0 => raiseError "parser fuel exhausted"
  | n + 1 => do
      let _ ← consumeP .LEFT_PAREN "Expect '(' after 'if'."
      let condition ← expressionP n
      let _ ← consumeP .RIGHT_PAREN "Expect ')' after if condition."
      let thenBranch ← statementP n
      let elseBranch ←
        if (← matchP [.ELSE]) then do
          let e ← statementP n
          pure (some e)
        else pure none
      pure (.ifS condition thenBranch elseBranch)

def printStatementP : Nat → P Stmt
  | 0 => raiseError "parser fuel exhausted"
  | n + 1 => do
      let value ← expressionP n
      let _ ← consumeP .SEMICOLON "Expect ';' after value."
      pure (.print value)

def returnStatementP : Nat → P Stmt
  | 0 => raiseError "parser fuel exhausted"
  | n + 1 => do
      let value ←
        if !(← checkP .SEMICOLON) then do
          let v ← expressionP n
          pure (some v)
        else pure none
      let _ ← consumeP .SEMICOLON "Expect ';' after return value."
      pure (.returnS value)

def varDeclarationP : Nat → P Stmt
  | 0 => raiseError "parser fuel exhausted"
  | n + 1 => do
      let name ← consumeP .IDENTIFIER "Expect variable name."
      let initializer ←
        if (← matchP [.EQUAL]) then do
          let i ← expressionP n
          pure (some i)
        else pure none
      let _ ← consumeP .SEMICOLON "Expect ';' after variable declaration."
      pure (.letS name.lexeme initializer)

def whileStatementP : Nat → P Stmt
  | 0 => raiseError "parser fuel exhausted"
  | n + 1 => do
      let _ ← consumeP .LEFT_PAREN "Expect '(' after 'while'."
      let condition ← expressionP n
      let _ ← consumeP .RIGHT_PAREN "Expect ')' after condition."
      let body ← statementP n
      pure (.whileS condition body)

def breakStatementP : Nat → P Stmt
  | 0 => raiseError "parser fuel exhausted"
  | _ + 1 => do
      let _ ← consumeP .SEMICOLON "Expect ';' after 'break' statement."
      pure .breakS

def expressionStatementP : Nat → P Stmt
  | 0 => raiseError "parser fuel exhausted"
  | n + 1 => do
      let value ← expressionP n
      let _ ← consumeP .SEMICOLON "Expect ';' after expression."
      pure (.expression value)

/-- `Parser.block`.  A `ParseError` inside a declaration leaves a Python
`None` in the statement list; `had_error` is set at that point and
`Hoot.run` stops before the list could be consumed, so the placeholder is
dropped here (error-free parses are unaffected). -/
def blockP : Nat → P (List Stmt)
  | 0 => raiseError "parser fuel exhausted"
  | n + 1 => do
      let stmts ← blockLoop n []
      let _ ← consumeP .RIGHT_BRACE "Expect '\x7d' after block."
      pure (stmts.filterMap id)

def blockLoop : Nat → List (Option Stmt) → P (List (Option Stmt))
  | 0, _ => raiseError "parser fuel exhausted"
  | n + 1, acc => do
      if !(← checkP .RIGHT_BRACE) && !(← isAtEndP) then do
        let d ← declarationP n
        blockLoop n (acc ++ [d])
      else pure acc

def isAtEndP : P Bool
  | s => (some (pIsAtEnd s), s)

end

/-- `Parser.parse`: declarations until EOF (a `ParseError` contributes a
Python `None` entry). -/
def parseLoop : Nat → List (Option Stmt) → P (List (Option Stmt))
  | 0, _ => raiseError "parser fuel exhausted"
  | n + 1, acc => do
      if !(← isAtEndP) then do
        let d ← declarationP n
        parseLoop n (acc ++ [d])
      else pure acc

/-- Run `Parser.parse` on a token list from a fresh parser. -/
def parseTokens (fuel : Nat) (tokens : List Token) :
    Option (List (Option Stmt)) × PState :=
  parseLoop fuel [] { tokens := tokens, current := 0, nextId := 0, errors := [] }

/-! ## Concrete programs and states used by the theorems -/

/-- `{ let a = a; print a; }` — a local `let` whose initializer reads the
variable being declared (node ids 0 and 1). -/
def progLetAA : List Stmt :=
  [.block [.letS "a" (some (.letiable 0 "a")), .print (.letiable 1 "a")]]

/-- `return 1;` at top level. -/
def progTopReturn : List Stmt := [.returnS (some (.literal (.num 1)))]

/-- The token stream of `+ class A { }`: `primary` raises `ParseError` at the
leading `+` with no semicolon anywhere before the `class` keyword (index 1). -/
def c3tokens : List Token :=
  [⟨.PLUS, "+", none, 1⟩, ⟨.CLASS, "class", none, 1⟩,
   ⟨.IDENTIFIER, "A", none, 1⟩, ⟨.LEFT_BRACE, "\x7b", none, 1⟩,
   ⟨.RIGHT_BRACE, "\x7d", none, 1⟩, ⟨.EOF, "", none, 1⟩]

/-- `let a = 1; print a;` at top level (the print's variable node has id 7). -/
def progGlobalLet : List Stmt :=
  [.letS "a" (some (.literal (.num 1))), .print (.letiable 7 "a")]

/-- `print clock;` — a reference to a native that no scope ever declares. -/
def progClock : List Stmt := [.print (.letiable 3 "clock")]

/-- `print true == 1;`. -/
def progTrueEqOne : List Stmt :=
  [.print (.binary (.literal (.bool true)) .EQUAL_EQUAL (.literal (.num 1)))]

/-- `print 1 + string("a");` — a number plus a string-instance. -/
def progNumPlusStrInst : List Stmt :=
  [.print (.binary (.literal (.num 1)) .PLUS
    (.call (.letiable 0 "string") [.literal (.str "a")]))]

/-- `print "b" + string("a");` — a primitive string plus a string-instance. -/
def progStrPlusStrInst : List Stmt :=
  [.print (.binary (.literal (.str "b")) .PLUS
    (.call (.letiable 0 "string") [.literal (.str "a")]))]

/-- `print true; print false; print nil;`. -/
def progPrintBools : List Stmt :=
  [.print (.literal (.bool true)), .print (.literal (.bool false)),
   .print (.literal .nil)]

/-- `class C { init() { return; } } print C();` — an initializer that
executes a bare `return;`. -/
def progC9 : List Stmt :=
  [.classS "C" none [("init", [], [.returnS none])],
   .print (.call (.letiable 0 "C") [])]

/-- The globals frame with one `StringInstance` `"a"` in the object store. -/
def stA : St := { envs := initSt.envs, objs := [.strInst "a"], output := [] }

/-- A bound `init` method (bare `return;` body, `is_initializer`) whose
closure is frame 1, the `bind`-created frame holding `this`. -/
def fW : FunData := ⟨"init", [], [.returnS none], 1, true⟩

/-- A world where instance 0 of class `C` exists and frame 1 binds `this`
to it (the state right after `HootFunction.bind`). -/
def stW : St :=
  { envs := [⟨[], none⟩, ⟨[("this", .vref 0)], some 0⟩],
    objs := [.inst (.mk "C" none []) []],
    output := [] }

/-- `stW` after `HootFunction.call` allocated the parameter frame (frame 2)
and the body `return;` ran without touching any binding. -/
def stW' : St :=
  { envs := [⟨[], none⟩, ⟨[("this", .vref 0)], some 0⟩, ⟨[], some 1⟩],
    objs := [.inst (.mk "C" none []) []],
    output := [] }

/-! ## Helper lemmas -/

/-- `get_at` at distance 0 never walks an `enclosing` link: it reads the
frame itself (missing keys defaulting to nil via `dict.get`). -/
theorem getAt_zero (st : St) (r : Nat) (name : String) :
    getAt st r 0 name =
      some ((dictGet (getFrame st r).values name).getD .vnil) := rfl

/-- A name contained in no scope of the stack has no depth. -/
theorem findScopeDepth_none (scopes : List Scope) (name : String)
    (h : ∀ sc ∈ scopes, scopeLookup sc name = none) :
    findScopeDepth scopes name = none := by
  induction scopes with
  | nil => rfl
  | cons top rest ih =>
      have htop : scopeLookup top name = none := h top (List.mem_cons_self _ _)
      have hrest : ∀ sc ∈ rest, scopeLookup sc name = none :=
        fun sc hsc => h sc (List.mem_cons_of_mem _ hsc)
      simp [findScopeDepth, htop, ih hrest]

/-! ## Claims -/

/-- C1: on every non-empty scope stack — and the stack is never empty, since
`Resolver.__init__` seeds it with `[{}]` and begin/end are balanced —
`visit_variable_expr` only runs `resolve_local` and reports nothing: the
"Can't read local variable in its own initializer." check is dead code behind
the inverted guard `if len(self.scopes) == 0`.  Concretely, resolving
`{ let a = a; print a; }` reports no error at all, so the program *is*
executed, contradicting the claim. -/
theorem c1_self_initializer_check_dead :
    (∀ (st : RState) (id : Nat) (name : String), st.scopes ≠ [] →
      visitVariableExpr st id name = Except.ok (resolveLocal st id name)) ∧
    (resolveProgram 100 progLetAA).map (fun r => r.errors) = Except.ok [] := by
  constructor
  · intro st id name h
    have hlen : (st.scopes.length == 0) = false := by
      cases hs : st.scopes with
      | nil => exact absurd hs h
      | cons a l => rfl
    simp [visitVariableExpr, hlen]
  · rfl

theorem c1_self_initializer_check_dead_witness :
    initRState.scopes ≠ [] ∧
    visitVariableExpr initRState 0 "a" =
      Except.ok (resolveLocal initRState 0 "a") :=
  ⟨by decide, c1_self_initializer_check_dead.1 initRState 0 "a" (by decide)⟩

/-- C2: for `return 1;` at top level the resolver reports nothing
(`visit_return_stmt` has no `current_function == NONE` check), so the
pipeline proceeds to execution, where the `ReturnBubble` raised by
`visit_return_stmt` escapes `interpret`'s `except RuntimeError` clause
(`ReturnBubble` subclasses `Exception` directly) and crashes the process —
the opposite of the claim on all three counts. -/
theorem c2_top_level_return_crashes :
    (resolveProgram 100 progTopReturn).map (fun r => r.errors) =
      Except.ok [] ∧
    runProgram 100 progTopReturn =
      Except.ok ([], some (.crashed "ReturnBubble", [])) := by
  exact ⟨rfl, rfl⟩

/-- C3: `Parser.synchronize`'s keyword test compares the `Token` object
`self.peek()` against `TokenType` members, which is `False` for every token,
so synchronization never stops at a statement-starting keyword.  On the
token stream of `+ class A { }` — a `ParseError` at `+`, no semicolon before
the `class` at index 1 — the parser synchronizes all the way to EOF
(index 5) and `parse` yields a single `None`: the class declaration is
discarded, not resumed at. -/
theorem c3_synchronize_never_stops_at_class :
    (∀ t : Token, tokenInSyncKeywords t = false) ∧
    (c3tokens.getD 1 default).type_ = TokenType.CLASS ∧
    (parseTokens 50 c3tokens).1 = some [none] ∧
    (parseTokens 50 c3tokens).2.current = 5 ∧
    (c3tokens.getD 5 default).type_ = TokenType.EOF ∧
    (parseTokens 50 c3tokens).2.errors = ["Expect expression."] :=
  ⟨fun _ => rfl, rfl, rfl, rfl, rfl, rfl⟩

/-- C4 counterexample: for the top-level program `let a = 1; print a;` the
resolver *does* record a depth entry — `(7, 0)` for the print's reference —
because `__init__` puts one scope (playing the global role) on the stack;
the claim's "records no entry for its references" is false, and the
reference is then served by distanced `get_at`, printing `1.0`. -/
theorem c4_counterexample :
    (resolveProgram 100 progGlobalLet).map (fun r => r.locals) =
      Except.ok [(7, 0)] ∧
    runProgram 100 progGlobalLet =
      Except.ok ([], some (.finished, ["1.0"])) := by
  exact ⟨rfl, rfl⟩

/-- C4 amended: the resolver's stack starts with one scope that serves as
the global scope, so a reference to a top-level variable already declared
gets a depth entry (depth 0 at top level) and runs through `get_at`; only a
name found in *no* scope on the stack — a native, or a global referenced
before its declaration — gets no entry and falls back to the chained lookup
on globals. -/
theorem c4_global_refs_get_depth_entries :
    (∀ (st : RState) (id : Nat) (name : String),
      (∀ sc ∈ st.scopes, scopeLookup sc name = none) →
      resolveLocal st id name = st) ∧
    (resolveProgram 100 progGlobalLet).map (fun r => r.locals) =
      Except.ok [(7, 0)] ∧
    (resolveProgram 100 progClock).map (fun r => r.locals) =
      Except.ok [] ∧
    runProgram 100 progClock =
      Except.ok ([], some (.finished, ["<native fn>"])) := by
  refine ⟨?_, rfl, rfl, rfl⟩
  intro st id name h
  simp [resolveLocal, findScopeDepth_none st.scopes name h]

theorem c4_global_refs_get_depth_entries_witness :
    (∀ sc ∈ initRState.scopes, scopeLookup sc "zzz" = none) ∧
    resolveLocal initRState 0 "zzz" = initRState :=
  ⟨by decide, c4_global_refs_get_depth_entries.1 initRState 0 "zzz" (by decide)⟩

/-- C5 counterexample: `is_equal` is Python's `==`, under which the boolean
`True` *equals* the number `1.0` (bool is a subclass of int), so `true == 1`
evaluates to true and `print true == 1;` prints `True` — the claim's
"`b == n` yields false" fails at `b = true`, `n = 1`. -/
theorem c5_counterexample :
    isEqual (.vbool true) (.vnum 1) = true ∧
    runProgram 100 progTrueEqOne =
      Except.ok ([], some (.finished, ["True"])) := by
  exact ⟨rfl, rfl⟩

/-- C5 amended: `==`/`!=` follow Python equality on the runtime values:
structural on nil, booleans, numbers and strings, identity on instances —
except that a boolean compares equal to the number it stands for
(`true == 1`, `false == 0`); all other cross-type comparisons are unequal. -/
theorem c5_python_equality :
    (∀ (st : St) (l r : Value),
      evalBinaryOp st .EQUAL_EQUAL l r = (.ok (.vbool (isEqual l r)), st)) ∧
    (∀ (st : St) (l r : Value),
      evalBinaryOp st .BANG_EQUAL l r = (.ok (.vbool (!(isEqual l r))), st)) ∧
    (∀ (b : Bool) (q : Rat),
      isEqual (.vbool b) (.vnum q) = (q == if b then 1 else 0)) ∧
    (∀ (b : Bool) (q : Rat),
      isEqual (.vnum q) (.vbool b) = (q == if b then 1 else 0)) ∧
    (∀ a b : Rat, isEqual (.vnum a) (.vnum b) = (a == b)) ∧
    (∀ a b : String, isEqual (.vstr a) (.vstr b) = (a == b)) ∧
    (∀ a b : Bool, isEqual (.vbool a) (.vbool b) = (a == b)) ∧
    (∀ a b : Nat, isEqual (.vref a) (.vref b) = (a == b)) ∧
    isEqual .vnil .vnil = true ∧
    (∀ s : String, ∀ q : Rat, isEqual (.vstr s) (.vnum q) = false) ∧
    (∀ s : String, ∀ q : Rat, isEqual (.vnum q) (.vstr s) = false) ∧
    (∀ b : Bool, ∀ s : String, isEqual (.vbool b) (.vstr s) = false) ∧
    (∀ b : Bool, isEqual .vnil (.vbool b) = false) ∧
    (∀ q : Rat, isEqual .vnil (.vnum q) = false) ∧
    (∀ r : Nat, ∀ q : Rat, isEqual (.vref r) (.vnum q) = false) :=
  ⟨fun _ _ _ => rfl, fun _ _ _ => rfl, fun _ _ => rfl, fun _ _ => rfl,
   fun _ _ => rfl, fun _ _ => rfl, fun _ _ => rfl, fun _ _ => rfl, rfl,
   fun _ _ => rfl, fun _ _ => rfl, fun _ _ => rfl, fun _ => rfl,
   fun _ => rfl, fun _ _ => rfl⟩

/-- C6 counterexample: a number plus a string-instance reaches the `raise`
of the `+` branch — `1 + string("a")` is the runtime error "Operands must be
two numbers or two strings.", not a concatenation; the claim's "p
a primitive value (number or string)" fails for numbers. -/
theorem c6_counterexample :
    evalPlus stA (.vnum 1) (.vref 0) =
      (.error (.rtErr "Operands must be two numbers or two strings."), stA) ∧
    runProgram 100 progNumPlusStrInst =
      Except.ok ([], some (.runtimeError
        "Operands must be two numbers or two strings.", [])) := by
  exact ⟨rfl, rfl⟩

/-- C6 amended: only a *string* primitive combines with a string-instance —
either order concatenates, textualizing the instance into a fresh
string-instance — while a *number* next to a string-instance raises
"Operands must be two numbers or two strings.". -/
theorem c6_plus_string_instance :
    (∀ (st : St) (s : String) (r : Nat) (cs : String),
      st.objs.getD r default = .strInst cs →
      evalPlus st (.vstr s) (.vref r) = allocStrInst st (s ++ cs)) ∧
    (∀ (st : St) (s : String) (r : Nat) (cs : String),
      st.objs.getD r default = .strInst cs →
      evalPlus st (.vref r) (.vstr s) = allocStrInst st (cs ++ s)) ∧
    (∀ (st : St) (q : Rat) (r : Nat) (cs : String),
      st.objs.getD r default = .strInst cs →
      evalPlus st (.vnum q) (.vref r) =
        (.error (.rtErr "Operands must be two numbers or two strings."), st)) ∧
    (∀ (st : St) (q : Rat) (r : Nat) (cs : String),
      st.objs.getD r default = .strInst cs →
      evalPlus st (.vref r) (.vnum q) =
        (.error (.rtErr "Operands must be two numbers or two strings."), st)) ∧
    runProgram 100 progStrPlusStrInst =
      Except.ok ([], some (.finished, ["ba"])) := by
  refine ⟨?_, ?_, ?_, ?_, rfl⟩ <;>
    · intro st s r cs h
      simp only [evalPlus, strInstChars, h]

theorem c6_plus_string_instance_witness :
    stA.objs.getD 0 default = Obj.strInst "a" ∧
    evalPlus stA (.vstr "b") (.vref 0) = allocStrInst stA ("b" ++ "a") :=
  ⟨rfl, c6_plus_string_instance.1 stA "b" 0 "a" rfl⟩

/-- C7 counterexample: `stringify` is `str(value)` for non-nil values, and
Python's `str(True)` is `"True"` — so `print true;` writes `True`, not the
claimed `true`. -/
theorem c7_counterexample :
    runProgram 100 [.print (.literal (.bool true))] =
      Except.ok ([], some (.finished, ["True"])) ∧
    "True" ≠ "true" := by
  exact ⟨rfl, by decide⟩

/-- C7 amended: the print statement textualizes `nil` as `"nil"` but
booleans through Python `str` as `"True"`/`"False"` (capitalized):
`print true;` writes exactly `True`. -/
theorem c7_print_textualization :
    (∀ st : St, stringify st (.vbool true) = "True") ∧
    (∀ st : St, stringify st (.vbool false) = "False") ∧
    (∀ st : St, stringify st .vnil = "nil") ∧
    runProgram 100 progPrintBools =
      Except.ok ([], some (.finished, ["True", "False", "nil"])) :=
  ⟨fun _ => rfl, fun _ => rfl, fun _ => rfl, rfl⟩

/-- C8: scanning `_foo` does *not* produce one identifier: `scan_token`'s
default branch dispatches on Python's `c.isalpha()`, which rejects `_`, so
the scanner reports "Unexpected character." for the underscore and then
lexes `foo` alone — even though the scanner's own `is_alpha` helper accepts
`_` (and does so for non-leading positions: `f_oo` is a single identifier). -/
theorem c8_underscore_scan :
    scanTokens "_foo" =
      ([⟨.IDENTIFIER, "foo", none, 1⟩, ⟨.EOF, "", none, 1⟩],
       ["Unexpected character."]) ∧
    scanner_is_alpha '_' = true ∧
    pyIsAlpha '_' = false ∧
    scanTokens "f_oo" =
      ([⟨.IDENTIFIER, "f_oo", none, 1⟩, ⟨.EOF, "", none, 1⟩], []) := by
  exact ⟨by decide, rfl, rfl, by decide⟩

/-- C9: when an `is_initializer` function's body finishes normally or
through a `ReturnBubble` (any carried value), `HootFunction.call` answers
`self.closure.get_at(0, "this")` — the value bound to `this` in the closure
frame — ignoring the carried value; and end to end, calling a class whose
`init` executes a bare `return;` yields the freshly constructed instance
(`class C { init() { return; } } print C();` prints `C instance`). -/
theorem c9_initializer_returns_this :
    (∀ (L : Locals) (n : Nat) (st : St) (f : FunData) (args : List Value)
       (res : Except Signal Unit) (st' : St),
      f.is_initializer = true →
      execBlock L n (funCallSetup st f args).2 (funCallSetup st f args).1
        f.body = (res, st') →
      (res = .ok () ∨ ∃ v, res = .error (.ret v)) →
      ∃ tv, getAt st' f.closure 0 "this" = some tv ∧
        callFun L (n + 1) st f args = (.ok tv, st')) ∧
    runProgram 100 progC9 =
      Except.ok ([], some (.finished, ["C instance"])) := by
  refine ⟨?_, rfl⟩
  intro L n st f args res st' hInit hrun hres
  refine ⟨(dictGet (getFrame st' f.closure).values "this").getD .vnil, rfl, ?_⟩
  rcases hsetup : funCallSetup st f args with ⟨envRef, st1⟩
  rw [hsetup] at hrun
  simp only [callFun, hsetup]
  rcases hres with hok | ⟨v, hret⟩
  · subst hok
    simp [hrun, hInit, getAt_zero]
  · subst hret
    simp [hrun, hInit, getAt_zero]

theorem c9_initializer_returns_this_witness :
    fW.is_initializer = true ∧
    (∃ tv, getAt stW' fW.closure 0 "this" = some tv ∧
      callFun [] 11 stW fW [] = (.ok tv, stW')) :=
  ⟨rfl, c9_initializer_returns_this.1 [] 10 stW fW []
    (.error (.ret .vnil)) stW' rfl rfl (Or.inr ⟨.vnil, rfl⟩)⟩

/-- C10: when the frame reached by walking exactly `d` enclosing links lacks
the name, `get_at` answers nil (`dict.get` of a missing key is Python
`None`), never an "Undefined variable" error — that error lives only in the
chained `Environment.get` used for globals; consequently `{ let a = a;
print a; }` resolves with no error, runs, binds `a` to nil and prints
`nil`. -/
theorem c10_get_at_missing_yields_nil :
    (∀ (st : St) (r d : Nat) (name : String) (r' : Nat),
      ancestor st r d = some r' →
      dictGet (getFrame st r').values name = none →
      getAt st r d name = some Value.vnil) ∧
    envGet initSt 0 "zzz" =
      .error (.rtErr "Undefined variable 'zzz'.") ∧
    (resolveProgram 100 progLetAA).map (fun r => r.errors) = Except.ok [] ∧
    runProgram 100 progLetAA =
      Except.ok ([], some (.finished, ["nil"])) := by
  refine ⟨?_, rfl, rfl, rfl⟩
  intro st r d name r' h1 h2
  simp [getAt, h1, h2]

theorem c10_get_at_missing_yields_nil_witness :
    ancestor initSt 0 0 = some 0 ∧
    dictGet (getFrame initSt 0).values "zzz" = none ∧
    getAt initSt 0 0 "zzz" = some Value.vnil :=
  ⟨rfl, rfl, c10_get_at_missing_yields_nil.1 initSt 0 0 "zzz" 0 rfl rfl⟩

end Hoot
